import Mathlib

/-!
Verification development for the MW-DeviceBox hardware-session subsystem.

Shallow embedding of the Python modules `app/devices/hid_reader.py`,
`app/devices/usb_discovery.py`, `app/devices/usb_power.py`,
`app/devices/barcode_scanner.py`, `app/services/settings_store.py` and
`app/services/pos_polling.py`.  File-system, device and network effects are
modelled as explicit environment records; Python exceptions are modelled
with `Except` or explicit outcome types; Python truthiness of strings and
optionals is spelled out at each use site.
-/

namespace DeviceBox

/-! ### Generic helpers (Python `str.strip`, `in` substring test, `sorted`) -/

/-- Does the first character list occur at the start of the second?
(Used to build the substring test that models Python `needle in haystack`.) -/
def charsLead : List Char → List Char → Bool
  | [], _ => true
  | _ :: _, [] => false
  | a :: as, b :: bs => a == b && charsLead as bs

/-- Python `needle in haystack` on strings, over character lists. -/
def hasSubstr (needle : List Char) : List Char → Bool
  | [] => needle.isEmpty
  | b :: bs => charsLead needle (b :: bs) || hasSubstr needle bs

/-- Python `str.strip()`: drop whitespace from both ends of a character list. -/
def stripChars (l : List Char) : List Char :=
  ((l.dropWhile Char.isWhitespace).reverse.dropWhile Char.isWhitespace).reverse

/-- Python `str.strip()` on a `String`. -/
def stripString (s : String) : String := (stripChars s.data).asString

/-- Insertion step for `sortStrings`. -/
def insertSorted (s : String) : List String → List String
  | [] => [s]
  | x :: xs => if s ≤ x then s :: x :: xs else x :: insertSorted s xs

/-- Python `sorted` on a list of strings (insertion sort; lexicographic). -/
def sortStrings : List String → List String
  | [] => []
  | x :: xs => insertSorted x (sortStrings xs)

/-! ### `app/devices/hid_reader.py` -/

/-- `HID_REPORT_SIZE = 8`. -/
def HID_REPORT_SIZE : Nat := 8

/-- `SCANCODE_ENTER = 0x28`. -/
def SCANCODE_ENTER : Nat := 0x28

/-- `SHIFT_MASK = 0x22`. -/
def SHIFT_MASK : Nat := 0x22

/-- `_SCANCODE_MAP`: unshifted USB HID scancode to character lookup. -/
def scancodeMap (n : Nat) : Option Char :=
  match n with
  | 0x04 => some 'a' | 0x05 => some 'b' | 0x06 => some 'c' | 0x07 => some 'd'
  | 0x08 => some 'e' | 0x09 => some 'f' | 0x0A => some 'g' | 0x0B => some 'h'
  | 0x0C => some 'i' | 0x0D => some 'j' | 0x0E => some 'k' | 0x0F => some 'l'
  | 0x10 => some 'm' | 0x11 => some 'n' | 0x12 => some 'o' | 0x13 => some 'p'
  | 0x14 => some 'q' | 0x15 => some 'r' | 0x16 => some 's' | 0x17 => some 't'
  | 0x18 => some 'u' | 0x19 => some 'v' | 0x1A => some 'w' | 0x1B => some 'x'
  | 0x1C => some 'y' | 0x1D => some 'z'
  | 0x1E => some '1' | 0x1F => some '2' | 0x20 => some '3' | 0x21 => some '4'
  | 0x22 => some '5' | 0x23 => some '6' | 0x24 => some '7' | 0x25 => some '8'
  | 0x26 => some '9' | 0x27 => some '0'
  | 0x2C => some ' ' | 0x2D => some '-' | 0x2E => some '=' | 0x2F => some '['
  | 0x30 => some ']' | 0x31 => some '\\' | 0x33 => some ';' | 0x34 => some '\''
  | 0x35 => some '`' | 0x36 => some ',' | 0x37 => some '.' | 0x38 => some '/'
  | _ => none

/-- `_SCANCODE_MAP_SHIFTED`: shifted USB HID scancode to character lookup.
The brace characters are written via `Char.ofNat` (0x7b, 0x7d). -/
def scancodeMapShifted (n : Nat) : Option Char :=
  match n with
  | 0x04 => some 'A' | 0x05 => some 'B' | 0x06 => some 'C' | 0x07 => some 'D'
  | 0x08 => some 'E' | 0x09 => some 'F' | 0x0A => some 'G' | 0x0B => some 'H'
  | 0x0C => some 'I' | 0x0D => some 'J' | 0x0E => some 'K' | 0x0F => some 'L'
  | 0x10 => some 'M' | 0x11 => some 'N' | 0x12 => some 'O' | 0x13 => some 'P'
  | 0x14 => some 'Q' | 0x15 => some 'R' | 0x16 => some 'S' | 0x17 => some 'T'
  | 0x18 => some 'U' | 0x19 => some 'V' | 0x1A => some 'W' | 0x1B => some 'X'
  | 0x1C => some 'Y' | 0x1D => some 'Z'
  | 0x1E => some '!' | 0x1F => some '@' | 0x20 => some '#' | 0x21 => some '$'
  | 0x22 => some '%' | 0x23 => some '^' | 0x24 => some '&' | 0x25 => some '*'
  | 0x26 => some '(' | 0x27 => some ')'
  | 0x2C => some ' ' | 0x2D => some '_' | 0x2E => some '+'
  | 0x2F => some (Char.ofNat 0x7b) | 0x30 => some (Char.ofNat 0x7d)
  | 0x31 => some '|' | 0x33 => some ':' | 0x34 => some '"' | 0x36 => some '<'
  | 0x35 => some '~' | 0x37 => some '>' | 0x38 => some '?'
  | _ => none

/-- `_decode_report(data)`: decode a single HID report into a character.
`data` is the raw byte string, modelled as a list of byte values. -/
def decode_report (data : List Nat) : Option Char :=
  if data.length < HID_REPORT_SIZE then none
  else
    let modifier := data.getD 0 0
    let scancode := data.getD 2 0
    if scancode = 0 then none
    else if scancode = SCANCODE_ENTER then none
    else if modifier &&& SHIFT_MASK ≠ 0 then scancodeMapShifted scancode
    else scancodeMap scancode

/-- `read_report_with_timeout(device, timeout)`.  `ready` models whether
`select` signalled data before the timeout; `data` models the byte string
returned by `device.read(HID_REPORT_SIZE)`. -/
def read_report_with_timeout (ready : Bool) (data : List Nat) : Option (List Nat) :=
  if ready = false then none
  else if data = [] ∨ data.length < HID_REPORT_SIZE then none
  else some data

/-- Loop body of `read_barcode(device_path)`.  `reads` is the sequence of
byte strings successive `device.read(HID_REPORT_SIZE)` calls return; an
exhausted sequence models a read returning empty bytes (disconnect). -/
def read_barcode_go : List (List Nat) → List Char → Option String
  | [], _ => none
  | data :: rest, acc =>
    if data = [] ∨ data.length < HID_REPORT_SIZE then none
    else
      let modifier := data.getD 0 0
      let scancode := data.getD 2 0
      if scancode = 0 then read_barcode_go rest acc
      else if scancode = SCANCODE_ENTER then
        let result := acc.asString
        if result = "" then none else some result
      else
        match (if modifier &&& SHIFT_MASK ≠ 0 then scancodeMapShifted scancode
               else scancodeMap scancode) with
        | some c => read_barcode_go rest (acc ++ [c])
        | none => read_barcode_go rest acc

/-- `read_barcode(device_path)`: blocking read of a single barcode. -/
def read_barcode (reads : List (List Nat)) : Option String :=
  read_barcode_go reads []

/-! ### Lemmas about `stripChars` -/

/-- The head surviving `dropWhile` fails the predicate. -/
theorem dropWhile_head_false {α : Type} {p : α → Bool} :
    ∀ (l : List α) (a : α) (t : List α), l.dropWhile p = a :: t → p a = false := by
  intro l
  induction l with
  | nil => intro a t h; simp [List.dropWhile] at h
  | cons b bs ih =>
    intro a t h
    by_cases hb : p b
    · exact ih a t (by simpa [List.dropWhile, hb] using h)
    · simp [List.dropWhile, hb] at h
      simp [← h.1, Bool.eq_false_iff, hb]

/-- An element failing the predicate survives `dropWhile`. -/
theorem mem_dropWhile_of_false {α : Type} {p : α → Bool} {c : α} :
    ∀ l : List α, c ∈ l → p c = false → c ∈ l.dropWhile p := by
  intro l
  induction l with
  | nil => intro h; simp at h
  | cons b bs ih =>
    intro hm hc
    by_cases hb : p b
    · have hcb : c ∈ bs := by
        rcases List.mem_cons.mp hm with h | h
        · subst h; simp [hb] at hc
        · exact h
      simpa [List.dropWhile, hb] using ih hcb hc
    · simpa [List.dropWhile, hb] using hm

/-- A non-whitespace member keeps `stripChars` non-empty. -/
theorem stripChars_ne_nil_of_mem {c : Char} {l : List Char}
    (hm : c ∈ l) (hc : c.isWhitespace = false) : stripChars l ≠ [] := by
  have h1 : c ∈ l.dropWhile Char.isWhitespace := mem_dropWhile_of_false l hm hc
  have h2 : c ∈ (l.dropWhile Char.isWhitespace).reverse := List.mem_reverse.mpr h1
  have h3 : c ∈ (l.dropWhile Char.isWhitespace).reverse.dropWhile Char.isWhitespace :=
    mem_dropWhile_of_false _ h2 hc
  have h4 : c ∈ stripChars l := List.mem_reverse.mpr h3
  exact List.ne_nil_of_mem h4

/-- A non-empty `stripChars` result contains a non-whitespace character. -/
theorem stripChars_has_non_ws {l : List Char} (h : stripChars l ≠ []) :
    ∃ c ∈ stripChars l, c.isWhitespace = false := by
  unfold stripChars at h ⊢
  rcases hm : (l.dropWhile Char.isWhitespace).reverse.dropWhile Char.isWhitespace with
    _ | ⟨a, t⟩
  · simp [hm] at h
  · refine ⟨a, ?_, dropWhile_head_false _ a t hm⟩
    exact List.mem_reverse.mpr (List.mem_cons_self a t)

/-- Stripping an already stripped non-empty list stays non-empty. -/
theorem stripChars_stripChars_ne_nil {l : List Char} (h : stripChars l ≠ []) :
    stripChars (stripChars l) ≠ [] := by
  obtain ⟨c, hm, hc⟩ := stripChars_has_non_ws h
  exact stripChars_ne_nil_of_mem hm hc

/-! ### Claims C4 and C9 -/

/-- C4: decoding the report stream for modifier 0 and first-keycode-slot
values encoding 'h','e','l','l','o' followed by an Enter (0x28) report
yields the barcode string "hello". -/
theorem C4_read_barcode_hello :
    read_barcode [[0, 0, 0x0B, 0, 0, 0, 0, 0], [0, 0, 0x08, 0, 0, 0, 0, 0],
      [0, 0, 0x0F, 0, 0, 0, 0, 0], [0, 0, 0x0F, 0, 0, 0, 0, 0],
      [0, 0, 0x12, 0, 0, 0, 0, 0], [0, 0, 0x28, 0, 0, 0, 0, 0]] = some "hello" := by
  decide

/-- C9: `read_report_with_timeout` returns `none` or a byte string of length
at least `HID_REPORT_SIZE` (so indices 0 and 2 are in bounds), and
`_decode_report` returns `none` for any input shorter than 8 bytes. -/
theorem C9_report_length_bounds :
    (∀ (ready : Bool) (data d : List Nat), read_report_with_timeout ready data = some d →
      HID_REPORT_SIZE ≤ d.length ∧ 0 < d.length ∧ 2 < d.length) ∧
    (∀ data : List Nat, data.length < HID_REPORT_SIZE → decode_report data = none) := by
  constructor
  · intro ready data d h
    unfold read_report_with_timeout at h
    by_cases hr : ready = false
    · simp [hr] at h
    · rw [if_neg hr] at h
      by_cases hd : data = [] ∨ data.length < HID_REPORT_SIZE
      · simp [hd] at h
      · rw [if_neg hd] at h
        have hdd : data = d := by injection h
        push_neg at hd
        subst hdd
        have hlen := hd.2
        unfold HID_REPORT_SIZE at hlen ⊢
        exact ⟨hlen, by omega, by omega⟩
  · intro data h
    unfold decode_report
    rw [if_pos h]

/-- C9 witness: a concrete 8-byte report is accepted with in-bounds indices,
and a short report decodes to `none`. -/
theorem C9_report_length_bounds_witness :
    (HID_REPORT_SIZE ≤ ([0, 0, 4, 0, 0, 0, 0, 0] : List Nat).length ∧
      0 < ([0, 0, 4, 0, 0, 0, 0, 0] : List Nat).length ∧
      2 < ([0, 0, 4, 0, 0, 0, 0, 0] : List Nat).length) ∧
    decode_report [0] = none :=
  ⟨C9_report_length_bounds.1 true [0, 0, 4, 0, 0, 0, 0, 0] [0, 0, 4, 0, 0, 0, 0, 0]
      (by decide),
   C9_report_length_bounds.2 [0] (by decide)⟩

/-! ### `app/devices/barcode_scanner.py`: read loop and session handler

The worker's blocking calls are driven by explicit schedules: each
`LoopIter` gives the environment one iteration of the `while` loop in
`BarcodeScanner._read_barcodes` observes (the `_running and
_session_active` flags at the loop head, the `Path(device_path).exists()`
checks, and the outcome of `read_report_with_timeout`).  An exhausted
schedule models the flags having gone false.  `flush_buffer` only discards
stale reports, so the schedule represents the post-flush stream.  The
timestamp produced by `datetime.now()` and the device name are parameters. -/

/-- `ScanEntry` dataclass. -/
structure ScanEntry where
  barcode : String
  timestamp : String
  device : String
  deriving DecidableEq, Repr

/-- Python exceptions that can cross the read loop. -/
inductive PyExn
  | permDenied
  | osErr (msg : String)
  | other (msg : String)
  deriving DecidableEq, Repr

/-- Outcome of one `read_report_with_timeout` call: either `select`/`read`
complete (with readiness flag and bytes) or an exception is raised. -/
inductive ReadOutcome
  | ok (ready : Bool) (data : List Nat)
  | raised (e : PyExn)
  deriving DecidableEq, Repr

/-- Environment for one iteration of the read loop. -/
structure LoopIter where
  flagsOk : Bool
  existsBefore : Bool
  readOutcome : ReadOutcome
  existsAfterTimeout : Bool
  deriving DecidableEq, Repr

/-- How the read loop terminated. -/
inductive BodyExit
  | flagExit
  | deviceLost
  | exnExit (e : PyExn)
  deriving DecidableEq, Repr

/-- Result of one iteration of the read loop: leave the loop, or continue
with updated accumulated characters, possibly having invoked the barcode
callback with an emitted entry. -/
inductive StepRes
  | exitLoop (e : BodyExit)
  | cont (chars : List Char) (emitted : Option ScanEntry)
  deriving DecidableEq, Repr

/-- One iteration of the `while` loop in `BarcodeScanner._read_barcodes`.
`cb` is whether `self._on_barcode` is set when the callback slot is read;
callback exceptions are swallowed by the inner `try` and so have no effect
on control flow or state. -/
def loopStep (cb : Bool) (name ts : String) (it : LoopIter) (chars : List Char) : StepRes :=
  if it.flagsOk = false then .exitLoop .flagExit
  else if it.existsBefore = false then .exitLoop .deviceLost
  else
    match it.readOutcome with
    | .raised e => .exitLoop (.exnExit e)
    | .ok ready data =>
      match read_report_with_timeout ready data with
      | none =>
        if it.existsAfterTimeout = false then .exitLoop .deviceLost
        else .cont chars none
      | some report =>
        if report.getD 2 0 = 0 then .cont chars none
        else if report.getD 2 0 = SCANCODE_ENTER then
          if stripChars chars ≠ [] then
            .cont [] (if cb then some ⟨(stripChars chars).asString, ts, name⟩ else none)
          else .cont [] none
        else
          match (if report.getD 0 0 &&& SHIFT_MASK ≠ 0
                 then scancodeMapShifted (report.getD 2 0)
                 else scancodeMap (report.getD 2 0)) with
          | some c => .cont (chars ++ [c]) none
          | none => .cont chars none

/-- The `while` loop of `BarcodeScanner._read_barcodes`: returns the list of
callback invocations (in order) and the exit cause. -/
def readLoopBody (cb : Bool) (name ts : String) :
    List LoopIter → List Char → List ScanEntry × BodyExit
  | [], _ => ([], .flagExit)
  | it :: rest, chars =>
    match loopStep cb name ts it chars with
    | .exitLoop e => ([], e)
    | .cont chars2 none => readLoopBody cb name ts rest chars2
    | .cont chars2 (some entry) =>
      let r := readLoopBody cb name ts rest chars2
      (entry :: r.1, r.2)

/-- Outcome of `open(device_path, "rb")` (plus the following flush). -/
inductive OpenOutcome
  | opened
  | permError
  | osError (msg : String)
  deriving DecidableEq, Repr

/-- Observable power / read-loop events, in program order. -/
inductive PwrEvent
  | powerOn
  | powerOff
  | loopEnter
  | loopExit
  deriving DecidableEq, Repr

/-- `BarcodeScanner._read_barcodes`: opens the device and runs the read
loop; `except PermissionError` and `except OSError` catch those two
exception classes (logged, normal return), anything else propagates. -/
def read_barcodes (cb : Bool) (name ts : String) (openRes : OpenOutcome)
    (iters : List LoopIter) : List ScanEntry × List PwrEvent × Except PyExn Unit :=
  match openRes with
  | .permError => ([], [], .ok ())
  | .osError _ => ([], [], .ok ())
  | .opened =>
    let r := readLoopBody cb name ts iters []
    match r.2 with
    | .exnExit (.other m) => (r.1, [.loopEnter, .loopExit], .error (.other m))
    | _ => (r.1, [.loopEnter, .loopExit], .ok ())

/-- `BarcodeScanner._handle_active_session`: power on, wait for the device
(`found` is whether `_wait_for_device` succeeded), then run
`_read_barcodes` inside `try/finally` whose `finally` issues the power-off.
Returns the power-event trace, the callback invocations and the
exceptional result (re-raised after the `finally`). -/
def handle_active_session (found cb : Bool) (name ts : String) (openRes : OpenOutcome)
    (iters : List LoopIter) : List PwrEvent × List ScanEntry × Except PyExn Unit :=
  if found = false then ([.powerOn], [], .ok ())
  else
    let r := read_barcodes cb name ts openRes iters
    (.powerOn :: r.2.1 ++ [.powerOff], r.1, r.2.2)

/-- Scanner instance fields touched by `BarcodeScanner.stop`. -/
structure ScannerState where
  running : Bool
  connected : Bool
  sessionActive : Bool
  sessionId : Option String
  usbDeviceId : Option String
  powerState : String
  deriving DecidableEq, Repr

/-- `BarcodeScanner.stop()`: clears `_running`, joins the worker, then
powers USB on only when `self._usb_device_id` is truthy (a non-empty
string), and clears the connected and session-active flags.  Returns the
new state and the power events issued. -/
def scanner_stop (s : ScannerState) : ScannerState × List PwrEvent :=
  let s1 : ScannerState := { s with running := false }
  let p :=
    match s1.usbDeviceId with
    | some i =>
      if i ≠ "" then ({ s1 with powerState := "on" }, [PwrEvent.powerOn])
      else (s1, ([] : List PwrEvent))
    | none => (s1, ([] : List PwrEvent))
  ({ p.1 with connected := false, sessionActive := false }, p.2)

/-! ### Claims C1, C7 and C8 -/

/-- C1: whenever the device was found and the read loop was entered (the
device file opened), the power-event trace of `_handle_active_session` is
power-on, loop entry, loop exit, power-off — the power-off follows the read
loop exit for every exit cause: deactivation or disconnection (in `iters`),
`PermissionError`, `OSError`, or any other exception raised inside the
loop. -/
theorem C1_power_off_follows_read_loop (cb : Bool) (name ts : String)
    (iters : List LoopIter) :
    (handle_active_session true cb name ts .opened iters).1 =
      [.powerOn, .loopEnter, .loopExit, .powerOff] := by
  unfold handle_active_session read_barcodes
  rw [if_neg (by decide : ¬ (true = false))]
  rcases hr : (readLoopBody cb name ts iters []).2 with _ | _ | e
  · simp [hr]
  · simp [hr]
  · cases e <;> simp [hr]

/-- C7 counterexample: for a scanner that never learned a USB device id
(`_usb_device_id` is `None`), `stop()` issues no power-on at all, refuting
the claim that a power-on is issued for every prior state. -/
theorem C7_stop_no_power_on_without_id :
    PwrEvent.powerOn ∉
      (scanner_stop ⟨true, true, true, some "abc", none, "off"⟩).2 := by
  decide

/-- C7 (amended): after `stop()` the session-active, connected and running
flags are false for every prior state; a power-on is issued (and the power
state set to "on") only when a USB device id had been learned (a truthy,
i.e. non-empty, `_usb_device_id`). -/
theorem C7_stop_state (s : ScannerState) :
    (scanner_stop s).1.sessionActive = false ∧
    (scanner_stop s).1.connected = false ∧
    (scanner_stop s).1.running = false ∧
    (∀ i, s.usbDeviceId = some i → i ≠ "" →
      (scanner_stop s).2 = [PwrEvent.powerOn] ∧ (scanner_stop s).1.powerState = "on") := by
  unfold scanner_stop
  refine ⟨?_, ?_, ?_, ?_⟩
  · rcases s with ⟨r, c, sa, sid, uid, ps⟩
    cases uid with
    | none => rfl
    | some i => by_cases hi : i = "" <;> simp [hi]
  · rcases s with ⟨r, c, sa, sid, uid, ps⟩
    cases uid with
    | none => rfl
    | some i => by_cases hi : i = "" <;> simp [hi]
  · rcases s with ⟨r, c, sa, sid, uid, ps⟩
    cases uid with
    | none => rfl
    | some i => by_cases hi : i = "" <;> simp [hi]
  · intro i hi hne
    rcases s with ⟨r, c, sa, sid, uid, ps⟩
    simp only at hi
    subst hi
    simp [hne]

/-- C7 witness: a scanner that had learned usb id "1-1.2" is left with the
flags cleared and a power-on issued. -/
theorem C7_stop_state_witness :
    (scanner_stop ⟨true, true, true, some "s", some "1-1.2", "off"⟩).1.sessionActive = false ∧
    (scanner_stop ⟨true, true, true, some "s", some "1-1.2", "off"⟩).2 = [PwrEvent.powerOn] := by
  have h := C7_stop_state ⟨true, true, true, some "s", some "1-1.2", "off"⟩
  exact ⟨h.1, (h.2.2.2 "1-1.2" rfl (by decide)).1⟩

/-- Helper for C8: an entry emitted by a single loop iteration carries the
stripped accumulator, which was non-empty. -/
theorem loopStep_emitted_spec (cb : Bool) (name ts : String) (it : LoopIter)
    (chars chars2 : List Char) (entry : ScanEntry)
    (h : loopStep cb name ts it chars = .cont chars2 (some entry)) :
    entry.barcode = (stripChars chars).asString ∧ stripChars chars ≠ [] := by
  unfold loopStep at h
  by_cases h1 : it.flagsOk = false
  · rw [if_pos h1] at h; exact absurd h (by simp)
  · rw [if_neg h1] at h
    by_cases h2 : it.existsBefore = false
    · rw [if_pos h2] at h; exact absurd h (by simp)
    · rw [if_neg h2] at h
      rcases hro : it.readOutcome with ⟨ready, data⟩ | e
      case neg.raised => simp only [hro] at h; exact absurd h (by simp)
      case neg.ok =>
        simp only [hro] at h
        rcases hrr : read_report_with_timeout ready data with _ | report <;>
          simp only [hrr] at h
        · by_cases h3 : it.existsAfterTimeout = false
          · rw [if_pos h3] at h; exact absurd h (by simp)
          · rw [if_neg h3] at h; exact absurd h (by simp)
        · by_cases h4 : report.getD 2 0 = 0
          · rw [if_pos h4] at h; exact absurd h (by simp)
          · rw [if_neg h4] at h
            by_cases h5 : report.getD 2 0 = SCANCODE_ENTER
            · rw [if_pos h5] at h
              by_cases h6 : stripChars chars ≠ []
              · rw [if_pos h6] at h
                cases cb with
                | false =>
                  rw [if_neg (by simp : ¬ (false = true))] at h
                  exact absurd h (by simp)
                | true =>
                  rw [if_pos rfl] at h
                  refine ⟨?_, h6⟩
                  injection h with hA hB
                  injection hB with hC
                  rw [← hC]
              · rw [if_neg h6] at h; exact absurd h (by simp)
            · rw [if_neg h5] at h
              rcases hmap : (if report.getD 0 0 &&& SHIFT_MASK ≠ 0
                  then scancodeMapShifted (report.getD 2 0)
                  else scancodeMap (report.getD 2 0)) with _ | c <;>
                simp only [hmap] at h
              · exact absurd h (by simp)
              · exact absurd h (by simp)

/-- C8: the read loop invokes the session callback only with `ScanEntry`
values whose barcode is non-empty after stripping whitespace (the barcode
equals its own strip and strips to a non-empty list); in particular a
concrete stream accumulating only a space and then Enter produces no
callback invocation. -/
theorem C8_callback_only_nonblank :
    (∀ (cb : Bool) (name ts : String) (iters : List LoopIter) (chars : List Char)
      (e : ScanEntry), e ∈ (readLoopBody cb name ts iters chars).1 →
        e.barcode ≠ "" ∧ stripChars e.barcode.data ≠ []) ∧
    (readLoopBody true "dev" "ts"
      [⟨true, true, .ok true [0, 0, 0x2C, 0, 0, 0, 0, 0], true⟩,
       ⟨true, true, .ok true [0, 0, 0x28, 0, 0, 0, 0, 0], true⟩] []).1 = [] := by
  constructor
  · intro cb name ts iters
    induction iters with
    | nil =>
      intro chars e he
      simp [readLoopBody] at he
    | cons it rest ih =>
      intro chars e he
      rcases hstep : loopStep cb name ts it chars with e' | ⟨chars2, em⟩
      · simp only [readLoopBody, hstep] at he
        simp at he
      · cases em with
        | none =>
          simp only [readLoopBody, hstep] at he
          exact ih chars2 e he
        | some entry =>
          simp only [readLoopBody, hstep] at he
          simp only [List.mem_cons] at he
          rcases he with he | he
          · subst he
            obtain ⟨hb, hne⟩ := loopStep_emitted_spec cb name ts it chars chars2 e hstep
            constructor
            · rw [hb]
              intro hcon
              have h2 := congrArg String.toList hcon
              rw [List.toList_asString] at h2
              exact hne h2
            · have hdata : e.barcode.data = stripChars chars := by
                rw [hb]
                exact List.toList_asString (stripChars chars)
              rw [hdata]
              exact stripChars_stripChars_ne_nil hne
          · exact ih chars2 e he
  · decide

/-- C8 witness: a stream scanning "1" then Enter invokes the callback with
barcode "1", which is non-blank after stripping. -/
theorem C8_callback_only_nonblank_witness :
    (⟨"1", "ts", "dev"⟩ : ScanEntry).barcode ≠ "" ∧
    stripChars (⟨"1", "ts", "dev"⟩ : ScanEntry).barcode.data ≠ [] :=
  C8_callback_only_nonblank.1 true "dev" "ts"
    [⟨true, true, .ok true [0, 0, 0x1E, 0, 0, 0, 0, 0], true⟩,
     ⟨true, true, .ok true [0, 0, 0x28, 0, 0, 0, 0, 0], true⟩] []
    ⟨"1", "ts", "dev"⟩ (by decide)

/-! ### `app/devices/usb_power.py` -/

/-- The values accepted by the `UsbPowerController.method` setter. -/
def ALLOWED_POWER_METHODS : List String := ["bind_unbind", "uhubctl", "none"]

/-- The `UsbPowerController.method` property setter: an unknown value is
coerced to "bind_unbind" before being stored. -/
def method_setter (value : String) : String :=
  if value ∈ ALLOWED_POWER_METHODS then value else "bind_unbind"

/-- Environment for the power controller: results of the sysfs
`bind`/`unbind` control-file writes (an `OSError` carries `str(exc)`),
whether `uhubctl` is on PATH, and the return code (or raised exception) of
each `uhubctl -l LOC -a ACTION` invocation. -/
structure UsbPowerEnv where
  writeBind : String → Except String Unit
  writeUnbind : String → Except String Unit
  uhubctlAvailable : Bool
  uhubctlRun : String → String → Except String Int

/-- Python `"No such device" in str(exc)`. -/
def containsNoSuchDevice (msg : String) : Bool :=
  hasSubstr "No such device".data msg.data

/-- `UsbPowerController._bind`: a failing write whose message contains
"No such device" (already bound) is treated as success. -/
def usb_bind (env : UsbPowerEnv) (usb_device_id : String) : Bool :=
  match env.writeBind usb_device_id with
  | .ok _ => true
  | .error msg => containsNoSuchDevice msg

/-- `UsbPowerController._unbind`: a failing write whose message contains
"No such device" (already unbound) is treated as success. -/
def usb_unbind (env : UsbPowerEnv) (usb_device_id : String) : Bool :=
  match env.writeUnbind usb_device_id with
  | .ok _ => true
  | .error msg => containsNoSuchDevice msg

/-- `_RPI5_UHUBCTL_LOCATIONS = ["1", "3"]`. -/
def RPI5_UHUBCTL_LOCATIONS : List String := ["1", "3"]

/-- `UsbPowerController._uhubctl_power`: fails when `uhubctl` is missing;
otherwise runs it for every location and succeeds only if every invocation
completes with return code 0. -/
def uhubctl_power (env : UsbPowerEnv) (isOn : Bool) : Bool :=
  if env.uhubctlAvailable = false then false
  else
    RPI5_UHUBCTL_LOCATIONS.all fun loc =>
      match env.uhubctlRun loc (if isOn then "1" else "0") with
      | .ok rc => rc == 0
      | .error _ => false

/-- `UsbPowerController.power_on`: `None` and the empty string are falsy
USB device ids, on which the bind_unbind strategy returns `False`. -/
def power_on (method : String) (env : UsbPowerEnv) (usb_device_id : Option String) : Bool :=
  if method = "none" then true
  else if method = "uhubctl" then uhubctl_power env true
  else
    match usb_device_id with
    | none => false
    | some i => if i = "" then false else usb_bind env i

/-- `UsbPowerController.power_off`. -/
def power_off (method : String) (env : UsbPowerEnv) (usb_device_id : Option String) : Bool :=
  if method = "none" then true
  else if method = "uhubctl" then uhubctl_power env false
  else
    match usb_device_id with
    | none => false
    | some i => if i = "" then false else usb_unbind env i

/-! ### Claims C5 and C10 -/

/-- C5: for every non-empty USB device id, `power_on` and `power_off` under
the bind_unbind method report success both on a clean write and on an
`OSError` whose message contains "No such device", so a `power_off`
followed by a second `power_off` (or by a `power_on`) where one write
reports "no such device" still reports success. -/
theorem C5_no_such_device_is_success (env : UsbPowerEnv) (i msg : String)
    (hid : i ≠ "") (hmsg : containsNoSuchDevice msg = true) :
    (env.writeUnbind i = .error msg → power_off "bind_unbind" env (some i) = true) ∧
    (env.writeBind i = .error msg → power_on "bind_unbind" env (some i) = true) ∧
    (env.writeUnbind i = .ok () → power_off "bind_unbind" env (some i) = true) ∧
    (env.writeBind i = .ok () → power_on "bind_unbind" env (some i) = true) := by
  refine ⟨?_, ?_, ?_, ?_⟩ <;> intro hw <;>
    simp [power_off, power_on, usb_unbind, usb_bind, hid, hw, hmsg]

/-- C5 witness: a concrete environment where both sysfs writes raise
"No such device": power_off and power_on both succeed for id "1-1.2". -/
theorem C5_no_such_device_is_success_witness :
    power_off "bind_unbind"
      ⟨fun _ => .error "[Errno 19] No such device",
       fun _ => .error "[Errno 19] No such device", false, fun _ _ => .error "x"⟩
      (some "1-1.2") = true ∧
    power_on "bind_unbind"
      ⟨fun _ => .error "[Errno 19] No such device",
       fun _ => .error "[Errno 19] No such device", false, fun _ _ => .error "x"⟩
      (some "1-1.2") = true :=
  ⟨(C5_no_such_device_is_success
      ⟨fun _ => .error "[Errno 19] No such device",
       fun _ => .error "[Errno 19] No such device", false, fun _ _ => .error "x"⟩
      "1-1.2" "[Errno 19] No such device" (by decide) (by decide)).1 rfl,
   (C5_no_such_device_is_success
      ⟨fun _ => .error "[Errno 19] No such device",
       fun _ => .error "[Errno 19] No such device", false, fun _ _ => .error "x"⟩
      "1-1.2" "[Errno 19] No such device" (by decide) (by decide)).2.1 rfl⟩

/-- C10: the method setter always leaves the stored method in the allowed
set, and any value outside the set is coerced to "bind_unbind". -/
theorem C10_method_always_valid :
    ∀ v : String,
      (method_setter v = "bind_unbind" ∨ method_setter v = "uhubctl" ∨
        method_setter v = "none") ∧
      (v ∉ ALLOWED_POWER_METHODS → method_setter v = "bind_unbind") := by
  intro v
  constructor
  · unfold method_setter
    split
    · rename_i hv
      simp only [ALLOWED_POWER_METHODS, List.mem_cons, List.mem_singleton] at hv
      rcases hv with h | h | h
      · exact Or.inl h
      · exact Or.inr (Or.inl h)
      · simp at h
        exact Or.inr (Or.inr h)
    · exact Or.inl rfl
  · intro hv
    unfold method_setter
    rw [if_neg hv]

/-- C10 witness: an arbitrary junk value is coerced to "bind_unbind". -/
theorem C10_method_always_valid_witness :
    method_setter "garbage" = "bind_unbind" :=
  (C10_method_always_valid "garbage").2 (by decide)

/-! ### `app/services/settings_store.py` -/

/-- `PosSettings` dataclass (defaults: empty url/token, interval 2). -/
structure PosSettings where
  url : String
  token : String
  poll_interval : Int
  deriving DecidableEq, Repr

/-- `UsbPowerSettings` dataclass. -/
structure UsbPowerSettings where
  method : String
  deriving DecidableEq, Repr

/-- `AppSettings` dataclass. -/
structure AppSettings where
  pos : PosSettings
  usb_power : UsbPowerSettings
  deriving DecidableEq, Repr

/-- Default settings built by the dataclass default factories. -/
def defaultAppSettings : AppSettings := ⟨⟨"", "", 2⟩, ⟨"bind_unbind"⟩⟩

/-- Parsed `pos` section of the settings JSON (`dict.get` results). -/
structure RawPos where
  url : Option String
  token : Option String
  poll_interval : Option Int
  deriving DecidableEq, Repr

/-- Parsed `usb_power` section of the settings JSON. -/
structure RawUsb where
  method : Option String
  deriving DecidableEq, Repr

/-- Parsed settings JSON document. -/
structure RawSettings where
  pos : Option RawPos
  usb_power : Option RawUsb
  deriving DecidableEq, Repr

/-- State of the settings file seen by `SettingsStore._load`: missing file,
unparseable content (JSONDecodeError / ValueError / TypeError, including a
failing `int(...)` conversion), or a parsed JSON document. -/
inductive LoadInput
  | missing
  | corrupt
  | parsed (raw : RawSettings)
  deriving DecidableEq, Repr

/-- `SettingsStore._load`: missing or corrupt file keeps the current
(default) settings; a parsed document replaces them, with per-field
defaults for absent keys.  Note the loaded `poll_interval` is stored
unclamped. -/
def settings_load (inp : LoadInput) (cur : AppSettings) : AppSettings :=
  match inp with
  | .missing => cur
  | .corrupt => cur
  | .parsed raw =>
    { pos := { url := (raw.pos.getD ⟨none, none, none⟩).url.getD ""
               token := (raw.pos.getD ⟨none, none, none⟩).token.getD ""
               poll_interval := (raw.pos.getD ⟨none, none, none⟩).poll_interval.getD 2 }
      usb_power := { method := (raw.usb_power.getD ⟨none⟩).method.getD "bind_unbind" } }

/-- Python `url.rstrip("/")`. -/
def dropTrailingSlashes (s : String) : String :=
  ((s.data.reverse.dropWhile (fun c => c == '/')).reverse).asString

/-- URL normalisation in `SettingsStore.update_pos`: strip whitespace,
strip trailing slashes, auto-prepend "https://" when a non-empty value has
no protocol. -/
def normalize_pos_url (u : String) : String :=
  let u2 := dropTrailingSlashes (stripString u)
  if u2 ≠ "" ∧ ¬ (u2.startsWith "http://" ∨ u2.startsWith "https://")
  then "https://" ++ u2 else u2

/-- `SettingsStore.update_pos`: only provided (non-`None`) values are
updated; a provided poll interval is clamped via `max(1, poll_interval)`. -/
def settings_update_pos (s : AppSettings) (url token : Option String)
    (interval : Option Int) : AppSettings :=
  let s1 := match url with
    | some u => { s with pos := { s.pos with url := normalize_pos_url u } }
    | none => s
  let s2 := match token with
    | some t => { s1 with pos := { s1.pos with token := t } }
    | none => s1
  match interval with
  | some p => { s2 with pos := { s2.pos with poll_interval := max 1 p } }
  | none => s2

/-! ### Claim C6 -/

/-- C6 counterexample: loading a persisted settings file whose pos section
carries `poll_interval: 0` stores 0, refuting the claim that the stored
poll interval is at least 1 after every way of setting POS settings. -/
theorem C6_load_does_not_clamp :
    ¬ (1 ≤ (settings_load (.parsed ⟨some ⟨none, none, some 0⟩, none⟩)
        defaultAppSettings).pos.poll_interval) := by
  decide

/-- C6 (amended): the minimum of 1 is enforced only on the update path:
`update_pos` with a provided poll interval stores a value that is at least
1, and `update_pos` preserves the invariant when the interval is not
provided; `_load` stores the file's value unclamped. -/
theorem C6_update_pos_clamps (s : AppSettings) (url token : Option String) :
    (∀ p : Int,
      1 ≤ (settings_update_pos s url token (some p)).pos.poll_interval) ∧
    (1 ≤ s.pos.poll_interval → ∀ q : Option Int,
      1 ≤ (settings_update_pos s url token q).pos.poll_interval) := by
  constructor
  · intro p
    unfold settings_update_pos
    cases url <;> cases token <;> simp
  · intro h q
    cases q with
    | none =>
      unfold settings_update_pos
      cases url <;> cases token <;> simpa using h
    | some p =>
      unfold settings_update_pos
      cases url <;> cases token <;> simp

/-- C6 witness: updating with poll_interval 0 stores 1. -/
theorem C6_update_pos_clamps_witness :
    1 ≤ (settings_update_pos defaultAppSettings none none (some 0)).pos.poll_interval :=
  (C6_update_pos_clamps defaultAppSettings none none).1 0

/-! ### `app/devices/usb_discovery.py`

Sysfs paths are modelled as lists of components (the root `/` is `[]`, so
`Path.parent` is `dropLast`, with the root its own parent, and `Path.name`
is the last component, empty at the root). -/

/-- `KnownDevice` dataclass. -/
structure KnownDevice where
  vendor_id : String
  product_id : String
  name : String
  device_type : String
  deriving DecidableEq, Repr

/-- `KNOWN_DEVICES` registry. -/
def KNOWN_DEVICES : List KnownDevice :=
  [⟨"05f9", "2214", "Datalogic Touch 65", "barcode_scanner"⟩]

/-- `DiscoveredDevice` dataclass. -/
structure DiscoveredDevice where
  hidraw_path : String
  vendor_id : String
  product_id : String
  name : String
  device_type : String
  usb_device_id : String
  deriving DecidableEq, Repr

/-- State of the sysfs tree as seen by discovery: existence of the hidraw
class root, the result of `iterdir` on it (entry names, or an `OSError`),
per-path existence, `Path.resolve` results, and per-path `read_text`
results (`none` models an `OSError`/`PermissionError`). -/
structure Sysfs where
  rootExists : Bool
  iterdirNames : Except Unit (List String)
  pathExists : List String → Bool
  resolvePath : List String → Except Unit (List String)
  readTextAt : List String → Option String

/-- `Path.name` of a component-list path. -/
def pathName (p : List String) : String := p.getLast?.getD ""

/-- `SYSFS_HIDRAW = Path("/sys/class/hidraw")`. -/
def SYSFS_HIDRAW_PATH : List String := ["sys", "class", "hidraw"]

/-- `_read_sysfs_attr`: read a sysfs attribute file and strip it; read
errors give `None`. -/
def read_sysfs_attr (fs : Sysfs) (p : List String) : Option String :=
  match fs.readTextAt p with
  | some s => some (stripString s)
  | none => none

/-- The `_USB_DEVICE_ID_RE` pattern: one or more digits, a dash, then one
or more characters that are digits or dots (e.g. "1-1.2"). -/
def usbIdMatch (s : String) : Bool :=
  match s.data.dropWhile Char.isDigit with
  | '-' :: tail =>
    !(s.data.takeWhile Char.isDigit).isEmpty && !tail.isEmpty &&
      tail.all (fun c => c.isDigit || c == '.')
  | _ => false

/-- Walk of `_find_usb_device_id_from_path`: up to 10 levels looking for a
component matching the USB device id pattern. -/
def usbIdSearch : Nat → List String → Option String
  | 0, _ => none
  | fuel + 1, cur =>
    if usbIdMatch (pathName cur) then some (pathName cur)
    else if cur.dropLast = cur then none
    else usbIdSearch fuel cur.dropLast

/-- `_find_usb_device_id_from_path`: falls back to the starting path's name
when no component matches. -/
def find_usb_device_id_from_path (p : List String) : String :=
  (usbIdSearch 10 p).getD (pathName p)

/-- One level of the `_find_usb_info_for_hidraw` walk: check for
`idVendor`/`idProduct` attribute files at this level and read them. -/
def findUsbInfoStep (fs : Sysfs) (current : List String) :
    Option (String × String × String) :=
  if fs.pathExists (current ++ ["idVendor"]) = true ∧
     fs.pathExists (current ++ ["idProduct"]) = true then
    match read_sysfs_attr fs (current ++ ["idVendor"]),
          read_sysfs_attr fs (current ++ ["idProduct"]) with
    | some vendor, some product =>
      if vendor ≠ "" ∧ product ≠ "" then
        some (vendor.toLower, product.toLower,
          if usbIdMatch (pathName current) then pathName current
          else find_usb_device_id_from_path current)
      else none
    | _, _ => none
  else none

/-- The bounded upward walk (10 levels) of `_find_usb_info_for_hidraw`. -/
def findUsbInfoWalk (fs : Sysfs) : Nat → List String → Option (String × String × String)
  | 0, _ => none
  | fuel + 1, current =>
    match findUsbInfoStep fs current with
    | some r => some r
    | none =>
      if current.dropLast = current then none
      else findUsbInfoWalk fs fuel current.dropLast

/-- `_find_usb_info_for_hidraw(hidraw_name)`. -/
def find_usb_info_for_hidraw (fs : Sysfs) (hidrawName : String) :
    Option (String × String × String) :=
  if fs.pathExists (SYSFS_HIDRAW_PATH ++ [hidrawName]) = false then none
  else
    match fs.resolvePath (SYSFS_HIDRAW_PATH ++ [hidrawName]) with
    | .error _ => none
    | .ok realPath => findUsbInfoWalk fs 10 realPath

/-- `discover_devices()`: scan the hidraw class directory (sorted) and
collect entries whose USB ids are in the known-device registry.  The
Python dict comprehension keeps the last entry for a duplicated key, hence
the lookup over the reversed registry.  All error cases return the list
collected so far; the function never raises. -/
def discover_devices (fs : Sysfs) : List DiscoveredDevice :=
  if fs.rootExists = false then []
  else
    match fs.iterdirNames with
    | .error _ => []
    | .ok names =>
      (sortStrings names).foldl
        (fun acc hidrawName =>
          match find_usb_info_for_hidraw fs hidrawName with
          | none => acc
          | some (v, p, usbId) =>
            match KNOWN_DEVICES.reverse.find?
                (fun d => d.vendor_id == v && d.product_id == p) with
            | some known =>
              acc ++ [⟨"/dev/" ++ hidrawName, v, p, known.name, known.device_type, usbId⟩]
            | none => acc)
        []

/-- `find_barcode_scanner()`: first discovered device of type
"barcode_scanner". -/
def find_barcode_scanner (fs : Sysfs) : Option DiscoveredDevice :=
  (discover_devices fs).find? (fun d => d.device_type == "barcode_scanner")

/-! ### Claim C3 -/

/-- C3: `discover_devices` returns the empty list (and, per its return
type in this embedding, a list rather than an error) whenever the sysfs
hidraw root is absent, whenever enumerating it fails with an I/O error,
and whenever it is empty. -/
theorem C3_discover_never_raises (fs : Sysfs) :
    (fs.rootExists = false → discover_devices fs = []) ∧
    (fs.iterdirNames = .error () → discover_devices fs = []) ∧
    (fs.iterdirNames = .ok [] → discover_devices fs = []) := by
  refine ⟨?_, ?_, ?_⟩ <;> intro h
  · unfold discover_devices
    rw [if_pos h]
  · unfold discover_devices
    by_cases hr : fs.rootExists = false
    · rw [if_pos hr]
    · rw [if_neg hr]
      simp only [h]
  · unfold discover_devices
    by_cases hr : fs.rootExists = false
    · rw [if_pos hr]
    · rw [if_neg hr]
      simp only [h]
      rfl

/-- C3 witness: concrete absent-root, erroring and empty sysfs states all
yield the empty list. -/
theorem C3_discover_never_raises_witness :
    discover_devices ⟨false, .ok [], fun _ => false, fun p => .ok p, fun _ => none⟩ = [] ∧
    discover_devices ⟨true, .error (), fun _ => false, fun p => .ok p, fun _ => none⟩ = [] ∧
    discover_devices ⟨true, .ok [], fun _ => false, fun p => .ok p, fun _ => none⟩ = [] :=
  ⟨(C3_discover_never_raises ⟨false, .ok [], fun _ => false, fun p => .ok p,
      fun _ => none⟩).1 rfl,
   (C3_discover_never_raises ⟨true, .error (), fun _ => false, fun p => .ok p,
      fun _ => none⟩).2.1 rfl,
   (C3_discover_never_raises ⟨true, .ok [], fun _ => false, fun p => .ok p,
      fun _ => none⟩).2.2 rfl⟩

/-! ### `app/services/pos_polling.py` -/

/-- Observable state of the polling service touched by `_poll_loop`,
extended with instrumentation counting the `activate_session` /
`deactivate_session` calls made on the scanner. -/
structure PollState where
  status : String
  statusDetail : String
  currentSessionId : Option String
  activations : List String
  deactivations : Nat
  deriving DecidableEq, Repr

/-- State after `__init__` (status `STOPPED`); `start()` launches the
worker without touching the status. -/
def initialPollState : PollState := ⟨"stopped", "", none, [], 0⟩

/-- Python truthiness of an optional string (`None` and "" are falsy). -/
def optTruthy : Option String → Bool
  | some s => s != ""
  | none => false

/-- The `if self._current_session_id: deactivate...` pattern shared by the
branches of `_poll_loop`. -/
def deactivateIfTracked (s : PollState) : PollState :=
  if optTruthy s.currentSessionId then
    { s with currentSessionId := none, deactivations := s.deactivations + 1 }
  else s

/-- Result of `_fetch_session` in one loop iteration: a parsed JSON body
(`active` and `session_id` fields as `dict.get` results), a fetch failure
(status already set to error with a classified detail inside
`_fetch_session`), or an exception reaching the iteration's `except`. -/
inductive FetchOutcome
  | resp (active : Option Bool) (session_id : Option String)
  | fail (detail : String)
  | exn (msg : String)
  deriving DecidableEq, Repr

/-- One iteration of `PosPollingService._poll_loop`. -/
def poll_iter (pos : PosSettings) (f : FetchOutcome) (s : PollState) : PollState :=
  if pos.url = "" ∨ pos.token = "" then
    deactivateIfTracked
      { s with status := "not_configured",
               statusDetail := "POS URL oder Token nicht konfiguriert" }
  else
    match f with
    | .exn msg => deactivateIfTracked { s with status := "error", statusDetail := msg }
    | .fail detail =>
      deactivateIfTracked { s with status := "error", statusDetail := detail }
    | .resp activeRaw sidRaw =>
      if activeRaw.getD false = true ∧ optTruthy sidRaw = true then
        { (if s.currentSessionId ≠ some (sidRaw.getD "") then
            { s with activations := s.activations ++ [sidRaw.getD ""],
                     currentSessionId := some (sidRaw.getD "") }
          else s) with
          status := "session_active",
          statusDetail := "Session: " ++ ((sidRaw.getD "").data.take 8).asString ++ "..." }
      else
        { deactivateIfTracked s with
          status := "polling", statusDetail := "Warte auf Scan-Anfrage" }

/-! ### Claim C2 -/

/-- C2: for the scripted remote-session sequence inactive, active "S1",
inactive (with the POS configured), the status after the three iterations
is polling, session_active, polling, and the scanner is activated exactly
once (with "S1") and deactivated exactly once. -/
theorem C2_poll_status_sequence :
    (poll_iter ⟨"https://pos.example", "token123", 2⟩ (.resp (some false) none)
        initialPollState).status = "polling" ∧
    (poll_iter ⟨"https://pos.example", "token123", 2⟩ (.resp (some true) (some "S1"))
      (poll_iter ⟨"https://pos.example", "token123", 2⟩ (.resp (some false) none)
        initialPollState)).status = "session_active" ∧
    (poll_iter ⟨"https://pos.example", "token123", 2⟩ (.resp (some false) none)
      (poll_iter ⟨"https://pos.example", "token123", 2⟩ (.resp (some true) (some "S1"))
        (poll_iter ⟨"https://pos.example", "token123", 2⟩ (.resp (some false) none)
          initialPollState))).status = "polling" ∧
    (poll_iter ⟨"https://pos.example", "token123", 2⟩ (.resp (some false) none)
      (poll_iter ⟨"https://pos.example", "token123", 2⟩ (.resp (some true) (some "S1"))
        (poll_iter ⟨"https://pos.example", "token123", 2⟩ (.resp (some false) none)
          initialPollState))).activations = ["S1"] ∧
    (poll_iter ⟨"https://pos.example", "token123", 2⟩ (.resp (some false) none)
      (poll_iter ⟨"https://pos.example", "token123", 2⟩ (.resp (some true) (some "S1"))
        (poll_iter ⟨"https://pos.example", "token123", 2⟩ (.resp (some false) none)
          initialPollState))).deactivations = 1 := by
  decide

end DeviceBox
